import Mathlib

/-!
Verification of the cross-source arbitrage engine of the `py-lux` repository.

The Python sources are shallowly embedded: Python floats are modelled as
rationals (`ℚ`), Python `round(x, 2)` as round-half-to-even at two decimals,
dictionaries with `.get` defaults as records with total fields, and
`Optional` values as `Option`.  Each definition mirrors one function of the
repository, named after it where Lean allows.
-/

attribute [local semireducible] Rat.mul Rat.add Rat.sub Rat.inv

/-! ## Rounding: Python `round(x, 2)` (banker's rounding at 2 decimals) -/

/-- Round-half-to-even to the nearest integer, as Python's builtin `round`
does on the exact value. -/
def roundHalfEven (x : ℚ) : ℤ :=
  if x - ⌊x⌋ < 1/2 then ⌊x⌋
  else if 1/2 < x - ⌊x⌋ then ⌊x⌋ + 1
  else if ⌊x⌋ % 2 = 0 then ⌊x⌋ else ⌊x⌋ + 1

/-- Python `round(x, 2)`: round-half-to-even at two decimal places. -/
def round2 (x : ℚ) : ℚ := (roundHalfEven (x * 100) : ℚ) / 100

lemma roundHalfEven_ge_floor (x : ℚ) : ⌊x⌋ ≤ roundHalfEven x := by
  unfold roundHalfEven
  split_ifs <;> omega

lemma roundHalfEven_le_floor_add_one (x : ℚ) : roundHalfEven x ≤ ⌊x⌋ + 1 := by
  unfold roundHalfEven
  split_ifs <;> omega

lemma roundHalfEven_mono {x y : ℚ} (h : x ≤ y) :
    roundHalfEven x ≤ roundHalfEven y := by
  rcases lt_or_eq_of_le (Int.floor_mono h) with hf | hf
  · calc roundHalfEven x ≤ ⌊x⌋ + 1 := roundHalfEven_le_floor_add_one x
      _ ≤ ⌊y⌋ := by omega
      _ ≤ roundHalfEven y := roundHalfEven_ge_floor y
  · have hx : (⌊x⌋ : ℚ) ≤ x := Int.floor_le x
    have hy : (⌊y⌋ : ℚ) ≤ y := Int.floor_le y
    have hxy : x - (⌊x⌋ : ℚ) ≤ y - (⌊y⌋ : ℚ) := by
      rw [← hf]; linarith
    unfold roundHalfEven
    split_ifs <;> first
      | omega
      | linarith

lemma round2_mono {x y : ℚ} (h : x ≤ y) : round2 x ≤ round2 y := by
  unfold round2
  have h100 : x * 100 ≤ y * 100 := by linarith
  have hc : (roundHalfEven (x * 100) : ℚ) ≤ (roundHalfEven (y * 100) : ℚ) :=
    Int.cast_le.mpr (roundHalfEven_mono h100)
  have hpos : (0:ℚ) ≤ 100 := by norm_num
  exact div_le_div_of_nonneg_right hc hpos

/-! ## Arbitrage calculator

From `src/lib/research_agent.py` (`analyze_arbitrage_opportunities`) and
`src/scanners/watch_scanner.py` (`analyze_watch_arbitrage`):
`est_tax = round(tax_rate * price, 2)`,
`all_in_cost = price + shipping + est_tax`,
`spread = estimate - all_in_cost`,
`spread_pct = (spread / estimate * 100) if estimate > 0 else 0`,
`is_arbitrage = spread > 0`.
-/

/-- `all_in_cost = price + shipping + round(tax_rate * price, 2)`, as in
`analyze_arbitrage_opportunities` and `analyze_watch_arbitrage`. -/
def allInCost (price shipping tax_rate : ℚ) : ℚ :=
  price + shipping + round2 (tax_rate * price)

/-- The guarded spread-percentage expression
`(spread / estimate * 100) if estimate > 0 else 0`. -/
def spreadPctCalc (spread estimate : ℚ) : ℚ :=
  if 0 < estimate then spread / estimate * 100 else 0

/-- Result record of the per-listing arbitrage computation. -/
structure SpreadResult where
  all_in_cost : ℚ
  spread : Option ℚ
  spread_pct : Option ℚ
  is_arbitrage : Bool
  deriving DecidableEq, Repr

/-- Core of `analyze_arbitrage_opportunities` (src/lib/research_agent.py,
steps 2 and 3) for one listing: `psa_estimate` is the resolved reference
price (`None` when no provider succeeded).  Python's `if psa_estimate:`
treats both `None` and `0.0` as falsy. -/
def analyze_arbitrage_core (price shipping tax_rate : ℚ) :
    Option ℚ → SpreadResult
  | some pe =>
    if pe ≠ 0 then
      ⟨allInCost price shipping tax_rate,
       some (pe - allInCost price shipping tax_rate),
       some (spreadPctCalc (pe - allInCost price shipping tax_rate) pe),
       decide (0 < pe - allInCost price shipping tax_rate)⟩
    else
      ⟨allInCost price shipping tax_rate, none, none, false⟩
  | none => ⟨allInCost price shipping tax_rate, none, none, false⟩

/-! ## Theorems for claims C2, C7, C9 -/

/-- C2 counterexample: with price 500.00, shipping 5.99, taxRate 0.09 and
reference price 650.00, the code's all-in cost is 550.99, not the claimed
550.94 (tax is round(0.09 * 500, 2) = 45.00, and 500 + 5.99 + 45 = 550.99). -/
theorem C2_scenario_counterexample :
    (analyze_arbitrage_core 500 (599/100) (9/100) (some 650)).all_in_cost
        = 55099/100
      ∧ (analyze_arbitrage_core 500 (599/100) (9/100) (some 650)).all_in_cost
        ≠ 55094/100 := by
  constructor <;> decide

/-- C2 amended: for price 500.00, shipping 5.99, taxRate 0.09 and reference
price 650.00 the calculator produces allInCost = 550.99, spread = 99.01,
spreadPct = 9901/650 (≈ 15.23%), and isArbitrage = true. -/
theorem C2_scenario_amended :
    analyze_arbitrage_core 500 (599/100) (9/100) (some 650)
      = ⟨55099/100, some (9901/100), some (9901/650), true⟩ := by
  decide

/-- C7 counterexample: a resolved reference price of exactly 0 yields
`spread_pct = None` (Python's truthiness check routes 0.0 to the
no-estimate branch), not 0 as the claim states. -/
theorem C7_spread_pct_counterexample :
    (analyze_arbitrage_core 100 0 0 (some 0)).spread_pct = none
      ∧ (analyze_arbitrage_core 100 0 0 (some 0)).spread_pct ≠ some 0 := by
  constructor <;> decide

/-- C7 amended: the spread-percentage expression returns 0 for every
reference price ≤ 0 (so the division is only ever taken with a strictly
positive divisor), and a resolved reference price that is negative gives
`spread_pct = some 0`, while exactly 0 gives `spread_pct = none`. -/
theorem C7_spread_pct_guard (s r price shipping tax_rate : ℚ) (hr : r ≤ 0) :
    spreadPctCalc s r = 0
      ∧ (r < 0 →
          (analyze_arbitrage_core price shipping tax_rate (some r)).spread_pct
            = some 0)
      ∧ (analyze_arbitrage_core price shipping tax_rate (some 0)).spread_pct
          = none := by
  refine ⟨?_, ?_, ?_⟩
  · unfold spreadPctCalc
    rw [if_neg (not_lt.mpr hr)]
  · intro hneg
    have h0 : r ≠ 0 := ne_of_lt hneg
    simp only [analyze_arbitrage_core, h0, ne_eq, not_false_eq_true, if_true]
    simp only [spreadPctCalc, if_neg (not_lt.mpr hr)]
  · simp [analyze_arbitrage_core]

/-- C7 witness: the guard evaluated at spread 50, reference price -3. -/
theorem C7_spread_pct_guard_witness :
    spreadPctCalc 50 (-3) = 0
      ∧ (analyze_arbitrage_core 10 2 (1/10) (some (-3))).spread_pct = some 0
      ∧ (analyze_arbitrage_core 10 2 (1/10) (some 0)).spread_pct = none := by
  obtain ⟨h1, h2, h3⟩ := C7_spread_pct_guard 50 (-3) 10 2 (1/10) (by decide)
  exact ⟨h1, h2 (by decide), h3⟩

/-- C9: for fixed shipping and fixed taxRate ≥ 0, the all-in cost
`price + shipping + round(taxRate * price, 2)` is monotonically
increasing in price. -/
theorem C9_allInCost_monotone (shipping tax_rate p1 p2 : ℚ)
    (htax : 0 ≤ tax_rate) (hp : p1 ≤ p2) :
    allInCost p1 shipping tax_rate ≤ allInCost p2 shipping tax_rate := by
  unfold allInCost
  have hmul : tax_rate * p1 ≤ tax_rate * p2 :=
    mul_le_mul_of_nonneg_left hp htax
  have := round2_mono hmul
  linarith

/-- C9 witness: monotonicity evaluated at shipping 5.99, taxRate 0.09,
prices 100 and 200. -/
theorem C9_allInCost_monotone_witness :
    (0 : ℚ) ≤ 9/100 ∧ (100 : ℚ) ≤ 200
      ∧ allInCost 100 (599/100) (9/100) ≤ allInCost 200 (599/100) (9/100) :=
  ⟨by decide, by decide,
    C9_allInCost_monotone (599/100) (9/100) 100 200 (by decide) (by decide)⟩

/-! ## Quota tracker

From `src/lib/rapidapi_usage_tracker.py`: `record_request` resets the
monthly counter when more than 31 days have elapsed, increments both
counters, appends the request entry, and keeps only the last 50 entries.
Dates are modelled as integer day numbers; a request entry is opaque.
-/

/-- The persisted usage statistics of `rapidapi_usage_tracker.py`. -/
structure UsageStats where
  total_requests : Nat
  requests_this_month : Nat
  month_start : Int
  requests : List String
  deriving DecidableEq, Repr

/-- `record_request` (src/lib/rapidapi_usage_tracker.py): `now` is the
current day number, `entry` the recorded request line.  The function is
total: it only ever updates the state (quota exhaustion merely prints a
warning and neither blocks nor raises). -/
def record_request (stats : UsageStats) (now : Int) (entry : String) :
    UsageStats :=
  let stats1 :=
    if now - stats.month_start > 31 then
      { stats with requests_this_month := 0, month_start := now }
    else stats
  let stats2 :=
    { stats1 with
      total_requests := stats1.total_requests + 1,
      requests_this_month := stats1.requests_this_month + 1,
      requests := stats1.requests ++ [entry] }
  if stats2.requests.length > 50 then
    { stats2 with requests := stats2.requests.drop (stats2.requests.length - 50) }
  else stats2

/-- C10: after `record_request` the request log holds at most 50 entries,
`total_requests` grew by exactly 1, and `requests_this_month` grew by
exactly 1 from its reset-adjusted prior value (reset to 0 first when more
than 31 days have elapsed since `month_start`); the update is total, so
the call never blocks or raises on quota exhaustion. -/
theorem C10_record_request_invariants (stats : UsageStats) (now : Int)
    (entry : String) :
    (record_request stats now entry).requests.length ≤ 50
      ∧ (record_request stats now entry).total_requests
          = stats.total_requests + 1
      ∧ (record_request stats now entry).requests_this_month
          = (if now - stats.month_start > 31 then 0
             else stats.requests_this_month) + 1 := by
  unfold record_request
  by_cases h1 : now - stats.month_start > 31 <;>
    by_cases h2 : 50 < stats.requests.length + 1 <;>
      refine ⟨?_, ?_, ?_⟩ <;>
        simp [h1, h2, List.length_drop, List.length_append] <;> omega

/-- Sample states exercising both the reset branch and the truncation
branch of `record_request`. -/
def usageStatsA : UsageStats :=
  ⟨120, 29, 100, List.replicate 50 "q"⟩

theorem C10_record_request_invariants_witness :
    (record_request usageStatsA 140 "r").requests.length ≤ 50
      ∧ (record_request usageStatsA 140 "r").total_requests
          = usageStatsA.total_requests + 1
      ∧ (record_request usageStatsA 140 "r").requests_this_month
          = (if (140:Int) - usageStatsA.month_start > 31 then 0
             else usageStatsA.requests_this_month) + 1 :=
  C10_record_request_invariants usageStatsA 140 "r"

/-! ## Resilient call layer

From `src/lib/ebay_api.py`.  Both `search_trading_cards` (lines 74-193)
and `search_ebay_generic` (lines 344-506) run a request loop with
`max_retries = 2` total attempts (`for attempt in range(max_retries)`): an
HTTP error in {429, 500, 502, 503, 504} on a non-final attempt sleeps
`2 ** attempt + 0.1 * attempt` seconds and retries; any other HTTP error,
and any error on the final attempt, is re-raised to the caller.
`search_ebay_generic` additionally handles 401 on the first attempt by
refreshing the OAuth token (when client credentials are configured) and
re-issuing the request once.  The two attempts are embedded directly
(the source hardcodes `max_retries = 2`); the HTTP transport is abstracted
as `resp : Nat → Nat`, the status of the n-th request actually issued.
-/

/-- Result of one `search_*` call: parsed data or a surfaced HTTP error. -/
inductive CallResult where
  | ok : CallResult
  | httpError (status : Nat) : CallResult
  deriving DecidableEq, Repr

/-- Trace of one `search_*` call: how many HTTP requests were issued,
which backoff sleeps (in seconds) happened, and the outcome. -/
structure CallTrace where
  requests : Nat
  sleeps : List ℚ
  result : CallResult
  deriving DecidableEq, Repr

/-- The retryable statuses `(429, 500, 502, 503, 504)`. -/
def retryStatuses : List Nat := [429, 500, 502, 503, 504]

/-- The backoff `2 ** attempt + 0.1 * attempt` seconds. -/
def backoffSecs (attempt : Nat) : ℚ := 2 ^ attempt + (attempt : ℚ) / 10

/-- The second (final) attempt of the request loop, `attempt = 1`:
no retry is possible (`attempt < max_retries - 1` is false), so any
HTTP error status is surfaced.  `reqIdx` is the index of the request
this attempt issues. -/
def finalAttempt (resp : Nat → Nat) (reqIdx : Nat) : CallTrace :=
  if resp reqIdx < 400 then ⟨1, [], CallResult.ok⟩
  else ⟨1, [], CallResult.httpError (resp reqIdx)⟩

/-- `search_trading_cards` (src/lib/ebay_api.py, lines 74-193): first
attempt, with one backoff-and-retry allowed on a retryable status. -/
def search_trading_cards_call (resp : Nat → Nat) : CallTrace :=
  if resp 0 < 400 then ⟨1, [], CallResult.ok⟩
  else if resp 0 ∈ retryStatuses then
    let t := finalAttempt resp 1
    ⟨t.requests + 1, backoffSecs 0 :: t.sleeps, t.result⟩
  else ⟨1, [], CallResult.httpError (resp 0)⟩

/-- `search_ebay_generic` (src/lib/ebay_api.py, lines 344-506): like
`search_trading_cards_call`, but a 401 on the first attempt with client
credentials configured (`hasCreds`) refreshes the token (`refreshOk` =
the refresh produced a token) and re-issues the request immediately; the
re-issued response then flows through `raise_for_status` and the same
retry logic.  A second 401 — and a 401 on the final attempt, handled in
`finalAttempt` only through its surfaced status — is raised at once. -/
def search_ebay_generic_call (resp : Nat → Nat) (hasCreds refreshOk : Bool) :
    CallTrace :=
  if resp 0 = 401 then
    if hasCreds then
      if refreshOk then
        if resp 1 = 401 then ⟨2, [], CallResult.httpError 401⟩
        else if resp 1 < 400 then ⟨2, [], CallResult.ok⟩
        else if resp 1 ∈ retryStatuses then
          let t := finalAttempt resp 2
          ⟨t.requests + 2, backoffSecs 0 :: t.sleeps, t.result⟩
        else ⟨2, [], CallResult.httpError (resp 1)⟩
      else ⟨1, [], CallResult.httpError 401⟩
    else ⟨1, [], CallResult.httpError 401⟩
  else if resp 0 < 400 then ⟨1, [], CallResult.ok⟩
  else if resp 0 ∈ retryStatuses then
    let t := finalAttempt resp 1
    ⟨t.requests + 1, backoffSecs 0 :: t.sleeps, t.result⟩
  else ⟨1, [], CallResult.httpError (resp 0)⟩

lemma retryStatuses_ge_400 {s : Nat} (h : s ∈ retryStatuses) : 400 ≤ s := by
  have h5 : s = 429 ∨ s = 500 ∨ s = 502 ∨ s = 503 ∨ s = 504 := by
    simpa [retryStatuses] using h
  rcases h5 with h | h | h | h | h <;> omega

/-- C3 counterexample: under the code's policy (`max_retries = 2` total
attempts) a source that always answers 429 is asked exactly twice, not the
three times that a 2-retry policy implies, so the claimed "retried up to 2
times" is false on the code (it retries at most once). -/
theorem C3_retry_counterexample :
    (search_trading_cards_call (fun _ => 429)).requests = 2
      ∧ (search_trading_cards_call (fun _ => 429)).requests ≠ 3 := by
  constructor <;> decide

/-- C3 amended: a response in {429, 500, 502, 503, 504} is retried at most
once (two requests in total, `max_retries = 2`), with a backoff sleep of
`2 ** attempt + 0.1 * attempt` seconds before the retry; if the second
response is again an error it is surfaced to the caller as that HTTP
error status (a rate-limit error for 429), not a crash of the loop.  The
same holds for `search_ebay_generic`. -/
theorem C3_retry_policy (resp : Nat → Nat) (hasCreds refreshOk : Bool)
    (h0 : resp 0 ∈ retryStatuses) (h1 : 400 ≤ resp 1) :
    search_trading_cards_call resp
        = ⟨2, [backoffSecs 0], CallResult.httpError (resp 1)⟩
      ∧ (search_trading_cards_call resp).requests ≤ 2
      ∧ (resp 0 = 429 →
          search_ebay_generic_call resp hasCreds refreshOk
            = ⟨2, [backoffSecs 0], CallResult.httpError (resp 1)⟩) := by
  have hge : 400 ≤ resp 0 := retryStatuses_ge_400 h0
  have hr0 : ¬ resp 0 < 400 := by omega
  have hr1 : ¬ resp 1 < 400 := by omega
  have htc : search_trading_cards_call resp
      = ⟨2, [backoffSecs 0], CallResult.httpError (resp 1)⟩ := by
    unfold search_trading_cards_call finalAttempt
    rw [if_neg hr0, if_pos h0, if_neg hr1]
  refine ⟨htc, by rw [htc], ?_⟩
  intro h429
  have hn401 : ¬ resp 0 = 401 := by omega
  unfold search_ebay_generic_call finalAttempt
  rw [if_neg hn401, if_neg hr0, if_pos h0, if_neg hr1]

/-- C3 witness: the amended retry policy evaluated on a source that
always answers 429. -/
theorem C3_retry_policy_witness :
    search_trading_cards_call (fun _ => 429)
        = ⟨2, [backoffSecs 0], CallResult.httpError 429⟩
      ∧ (search_trading_cards_call (fun _ => 429)).requests ≤ 2
      ∧ search_ebay_generic_call (fun _ => 429) true true
          = ⟨2, [backoffSecs 0], CallResult.httpError 429⟩ := by
  obtain ⟨h1, h2, h3⟩ := C3_retry_policy (fun _ => 429) true true (by decide) (by decide)
  exact ⟨h1, h2, h3 (by decide)⟩

/-- Response sequence of a source whose first answer is 401 and whose
second answer is 200. -/
def resp401then200 : Nat → Nat := fun n => if n = 0 then 401 else 200

/-- C4 counterexample: in `search_ebay_generic`, a 401 on the first
attempt with refresh credentials configured triggers a token refresh and a
second request for the same call (which here succeeds), contradicting
"no second request is issued and the authentication error is surfaced
immediately". -/
theorem C4_auth_counterexample :
    resp401then200 0 = 401
      ∧ (search_ebay_generic_call resp401then200 true true).requests = 2
      ∧ (search_ebay_generic_call resp401then200 true true).requests ≠ 1
      ∧ (search_ebay_generic_call resp401then200 true true).result
          = CallResult.ok := by
  refine ⟨by decide, by decide, by decide, by decide⟩

/-- C4 amended: 403 is never retried and is surfaced immediately with a
single request; 401 is likewise surfaced immediately unless refresh
credentials are configured on the first attempt of `search_ebay_generic`,
in which case the token is refreshed and the request re-issued exactly
once (a persistent 401 is then surfaced after two requests, with no
backoff sleep); `search_trading_cards` never re-issues after 401 or 403. -/
theorem C4_auth_not_retried (resp : Nat → Nat) (refreshOk : Bool) :
    (resp 0 = 403 →
        (∀ hasCreds, search_ebay_generic_call resp hasCreds refreshOk
            = ⟨1, [], CallResult.httpError 403⟩)
          ∧ search_trading_cards_call resp
              = ⟨1, [], CallResult.httpError 403⟩)
      ∧ (resp 0 = 401 →
          search_ebay_generic_call resp false refreshOk
              = ⟨1, [], CallResult.httpError 401⟩
            ∧ search_trading_cards_call resp
                = ⟨1, [], CallResult.httpError 401⟩
            ∧ (resp 1 = 401 →
                search_ebay_generic_call resp true true
                  = ⟨2, [], CallResult.httpError 401⟩)) := by
  constructor
  · intro h4
    have hn401 : ¬ resp 0 = 401 := by omega
    have hnlt : ¬ resp 0 < 400 := by omega
    have hnretry : resp 0 ∉ retryStatuses := by
      intro hc
      have := retryStatuses_ge_400 hc
      simp [retryStatuses, h4] at hc
    constructor
    · intro hasCreds
      unfold search_ebay_generic_call
      rw [if_neg hn401, if_neg hnlt, if_neg hnretry, h4]
    · unfold search_trading_cards_call
      rw [if_neg hnlt, if_neg hnretry, h4]
  · intro h4
    have hnlt : ¬ resp 0 < 400 := by omega
    have hnretry : resp 0 ∉ retryStatuses := by
      intro hc
      simp [retryStatuses, h4] at hc
    refine ⟨?_, ?_, ?_⟩
    · unfold search_ebay_generic_call
      rw [if_pos h4]
      simp
    · unfold search_trading_cards_call
      rw [if_neg hnlt, if_neg hnretry, h4]
    · intro hb
      unfold search_ebay_generic_call
      rw [if_pos h4]
      simp [hb]

/-- C4 witness: the amended 401/403 behaviour evaluated on a source that
always answers 401. -/
theorem C4_auth_not_retried_witness :
    search_ebay_generic_call (fun _ => 401) false true
        = ⟨1, [], CallResult.httpError 401⟩
      ∧ search_trading_cards_call (fun _ => 401)
          = ⟨1, [], CallResult.httpError 401⟩
      ∧ search_ebay_generic_call (fun _ => 401) true true
          = ⟨2, [], CallResult.httpError 401⟩ := by
  obtain ⟨h1, h2, h3⟩ := (C4_auth_not_retried (fun _ => 401) true).2 (by decide)
  exact ⟨h1, h2, h3 (by decide)⟩

/-! ## Price resolution chain

From `src/lib/watch_api.py` (`get_watch_reference_price`, lines 928-987)
and `src/lib/research_agent.py` (`get_card_pricing`, lines 915-952).
Each provider call is abstracted by its outcome: it either returns an
`Optional[float]` or raises.  The watch chain wraps every provider call in
`try/except` and treats a raise like a `None` return; a provider result
counts as a success only when it is truthy (non-None and non-zero).
Providers 3 (WatchCharts API) and 4 (AI lookup) are gated on
configuration flags, mirroring `use_watchcharts`/`WATCHCHARTS_API_KEY`
and `OPENROUTER_API_KEY`.
-/

/-- Outcome of one provider invocation: a returned optional value, or a
raised exception. -/
inductive ProviderResult where
  | ok (v : Option ℚ)
  | raised
  deriving DecidableEq, Repr

/-- Python truthiness filter on an `Optional[float]`: `None` and `0.0`
are falsy. -/
def truthyQ : Option ℚ → Option ℚ
  | some v => if v = 0 then none else some v
  | none => none

/-- One `try: x = provider(); if x: return x; except: pass` step of the
chain: a raise is treated exactly like a `None` result. -/
def tryProvider : ProviderResult → Option ℚ
  | ProviderResult.ok v => truthyQ v
  | ProviderResult.raised => none

/-- `get_watch_reference_price` (src/lib/watch_api.py): providers in
order are (1) eBay sold listings, (2) WatchCharts scraping,
(3) WatchCharts API if `use_watchcharts` and the API key are configured,
(4) AI lookup if the OpenRouter key is configured. -/
def get_watch_reference_price (r1 r2 r3 r4 : ProviderResult)
    (use_watchcharts has_wc_key has_or_key : Bool) : Option ℚ :=
  match tryProvider r1 with
  | some v => some v
  | none =>
    match tryProvider r2 with
    | some v => some v
    | none =>
      match (if use_watchcharts && has_wc_key then tryProvider r3 else none) with
      | some v => some v
      | none => if has_or_key then tryProvider r4 else none

/-- `get_card_pricing` (src/lib/research_agent.py): (1) scrape the PSA
cert page; (2) if an OpenRouter key is configured, run the deep-research
provider and use its `psa_estimate` field.  `research` is `none` when the
provider returned `None`, `some est` when it returned a dict whose
`psa_estimate` is `est`. -/
def get_card_pricing (scrape : Option ℚ) (research : Option (Option ℚ))
    (has_or_key : Bool) : Option ℚ :=
  match truthyQ scrape with
  | some v => some v
  | none =>
    if has_or_key then
      match research with
      | some est => truthyQ est
      | none => none
    else none

/-- C5: the chain returns the first non-nil, non-zero provider result —
and since the result with a successful first provider is the same for all
values of the later providers, no later provider's outcome is ever
consulted after a success; a provider that raises is treated exactly as a
nil result at every position, so the chain continues instead of aborting.
The card chain likewise short-circuits on its first provider. -/
theorem C5_chain_first_success (r1 r2 r3 r4 : ProviderResult)
    (use_watchcharts has_wc_key has_or_key : Bool)
    (research : Option (Option ℚ)) (v : ℚ) (hv : v ≠ 0) :
    get_watch_reference_price (ProviderResult.ok (some v)) r2 r3 r4
        use_watchcharts has_wc_key has_or_key = some v
      ∧ (tryProvider r1 = none →
          get_watch_reference_price r1 (ProviderResult.ok (some v)) r3 r4
            use_watchcharts has_wc_key has_or_key = some v)
      ∧ get_watch_reference_price ProviderResult.raised r2 r3 r4
            use_watchcharts has_wc_key has_or_key
          = get_watch_reference_price (ProviderResult.ok none) r2 r3 r4
            use_watchcharts has_wc_key has_or_key
      ∧ get_watch_reference_price r1 ProviderResult.raised r3 r4
            use_watchcharts has_wc_key has_or_key
          = get_watch_reference_price r1 (ProviderResult.ok none) r3 r4
            use_watchcharts has_wc_key has_or_key
      ∧ get_watch_reference_price r1 r2 ProviderResult.raised r4
            use_watchcharts has_wc_key has_or_key
          = get_watch_reference_price r1 r2 (ProviderResult.ok none) r4
            use_watchcharts has_wc_key has_or_key
      ∧ get_watch_reference_price r1 r2 r3 ProviderResult.raised
            use_watchcharts has_wc_key has_or_key
          = get_watch_reference_price r1 r2 r3 (ProviderResult.ok none)
            use_watchcharts has_wc_key has_or_key
      ∧ get_card_pricing (some v) research has_or_key = some v := by
  refine ⟨?_, ?_, ?_, ?_, ?_, ?_, ?_⟩
  · simp [get_watch_reference_price, tryProvider, truthyQ, hv]
  · intro h1
    simp only [get_watch_reference_price]
    rw [h1]
    simp [tryProvider, truthyQ, hv]
  · rfl
  · cases h : tryProvider r1 <;>
      simp only [get_watch_reference_price] <;>
        rw [h] <;>
          simp [tryProvider, truthyQ]
  · cases h : tryProvider r1 <;>
      cases h2 : tryProvider r2 <;>
        simp only [get_watch_reference_price] <;>
          rw [h, h2] <;>
            simp [tryProvider, truthyQ]
  · cases h : tryProvider r1 <;>
      cases h2 : tryProvider r2 <;>
        simp only [get_watch_reference_price] <;>
          rw [h, h2] <;>
            cases huse : use_watchcharts && has_wc_key <;>
              simp [tryProvider, truthyQ, huse]
  · simp [get_card_pricing, truthyQ, hv]

/-- C5 witness: the chain evaluated with a first provider returning 100,
with a raising first provider, and with raising providers compared to nil
providers at each position. -/
theorem C5_chain_first_success_witness :
    get_watch_reference_price (ProviderResult.ok (some 100))
        ProviderResult.raised (ProviderResult.ok none)
        (ProviderResult.ok (some 7)) true true true = some 100
      ∧ get_watch_reference_price ProviderResult.raised
          (ProviderResult.ok (some 100)) (ProviderResult.ok none)
          (ProviderResult.ok (some 7)) true true true = some 100
      ∧ get_watch_reference_price ProviderResult.raised
            (ProviderResult.ok (some 5)) (ProviderResult.ok none)
            (ProviderResult.ok none) true true true
          = get_watch_reference_price (ProviderResult.ok none)
            (ProviderResult.ok (some 5)) (ProviderResult.ok none)
            (ProviderResult.ok none) true true true
      ∧ get_card_pricing (some 100) none true = some 100 := by
  refine ⟨?_, ?_, ?_, ?_⟩
  · exact (C5_chain_first_success ProviderResult.raised ProviderResult.raised
      (ProviderResult.ok none) (ProviderResult.ok (some 7)) true true true
      none 100 (by decide)).1
  · exact (C5_chain_first_success ProviderResult.raised ProviderResult.raised
      (ProviderResult.ok none) (ProviderResult.ok (some 7)) true true true
      none 100 (by decide)).2.1 rfl
  · exact (C5_chain_first_success ProviderResult.raised
      (ProviderResult.ok (some 5)) (ProviderResult.ok none)
      (ProviderResult.ok none) true true true none 100 (by decide)).2.2.1
  · exact (C5_chain_first_success ProviderResult.raised ProviderResult.raised
      ProviderResult.raised ProviderResult.raised true true true
      none 100 (by decide)).2.2.2.2.2.2

/-! ## Matching engine

From `src/lib/arbitrage_comparison.py`.  `SequenceMatcher.ratio` (Python
stdlib `difflib`, external to this repository) is abstracted as a
parameter `simf`; its documented contract — a similarity in [0, 1] — is a
hypothesis where needed.  Everything else (keyword extraction, the
substring probes, the weighting, the price-divergence penalty, the
thresholds) is embedded from the source.
-/

/-- A listing dictionary as consumed by the matchers: `.get(key, default)`
fields with their Python defaults. -/
structure Item where
  title : String := ""
  cert : String := ""
  price : ℚ := 0
  shipping : ℚ := 0
  brand : String := ""
  size : String := ""
  condition : String := ""
  deriving DecidableEq, Repr

/-- The `CrossPlatformMatch` record of arbitrage_comparison.py (with the
unused `amazon_item = None` field omitted). -/
structure CrossPlatformMatch where
  ebay_item : Item
  facebook_item : Item
  match_confidence : ℚ
  price_difference : ℚ
  best_platform : String
  match_reason : String
  deriving DecidableEq, Repr

/-- Python `needle in hay` list prefix check. -/
def listStarts : List Char → List Char → Bool
  | [], _ => true
  | _ :: _, [] => false
  | a :: as, b :: bs => a == b && listStarts as bs

/-- Python `needle in hay` substring check on strings. -/
def listHasSeq (n : List Char) : List Char → Bool
  | [] => n.isEmpty
  | c :: cs => listStarts n (c :: cs) || listHasSeq n cs

/-- Python `needle in hay` for strings. -/
def strContains (needle hay : String) : Bool :=
  listHasSeq needle.toList hay.toList

/-- Python `str.lower()` (character-wise ASCII lowercasing). -/
def lowerStr (s : String) : String := String.mk (s.toList.map Char.toLower)

/-- A character of the regex class `[a-z0-9]` (the text is lowercased
before keyword extraction). -/
def kwChar (c : Char) : Bool := c.isLower || c.isDigit

/-- A regex word character `[a-z0-9_]` after lowercasing, for the `\b`
boundaries of the keyword token pattern. -/
def wordChar (c : Char) : Bool := c.isAlphanum || c == '_'

/-- Maximal runs of word characters of a character list (`acc` is the
current run, reversed). -/
def wordRuns (acc : List Char) : List Char → List (List Char)
  | [] => if acc.isEmpty then [] else [acc.reverse]
  | c :: cs =>
    if wordChar c then wordRuns (c :: acc) cs
    else if acc.isEmpty then wordRuns [] cs
    else acc.reverse :: wordRuns [] cs

/-- The stop words dropped by `extract_keywords`. -/
def stopWords : List String :=
  ["the", "a", "an", "and", "or", "but", "in", "on", "at", "to", "for",
   "of", "with", "by", "psa", "grade", "edition"]

/-- `extract_keywords` (arbitrage_comparison.py): the set of
`\b[a-z0-9]{3,}\b` tokens of the lowercased text, minus stop words. -/
def extract_keywords (text : String) : Finset String :=
  if text = "" then ∅
  else
    ((((wordRuns [] (lowerStr text).toList).filter
          (fun r => decide (3 ≤ r.length) && r.all kwChar)).map
        (fun r => String.mk r)).filter
      (fun w => !(stopWords.contains w))).toFinset

/-- The keyword-overlap quotient
`len(a & b) / max(len(a | b), 1)` of `match_trading_cards` and
`match_luxury_items`. -/
def kwOverlap (a b : Finset String) : ℚ :=
  ((a ∩ b).card : ℚ) / ((max (a ∪ b).card 1 : ℕ) : ℚ)

/-- `similarity_score` (arbitrage_comparison.py): 0 on an empty string,
otherwise `SequenceMatcher(None, s1.lower(), s2.lower()).ratio()`,
abstracted by `simf`. -/
def similarity_score (simf : String → String → ℚ) (s1 s2 : String) : ℚ :=
  if s1 = "" ∨ s2 = "" then 0 else simf (lowerStr s1) (lowerStr s2)

/-- Shared PSA mention: `"psa" in title.lower()` on both sides. -/
def psaMatch (e f : Item) : Bool :=
  strContains "psa" (lowerStr e.title) && strContains "psa" (lowerStr f.title)

/-- Shared grade: `"10" in title` on both sides (not lowercased in the
source). -/
def gradeMatch (e f : Item) : Bool :=
  strContains "10" e.title && strContains "10" f.title

/-- `"1st" in t.lower() or "first" in t.lower()`. -/
def editionMention (t : String) : Bool :=
  strContains "1st" (lowerStr t) || strContains "first" (lowerStr t)

/-- Shared 1st-edition mention on both sides. -/
def editionMatch (e f : Item) : Bool :=
  editionMention e.title && editionMention f.title

/-- `"Facebook" if fb_price < ebay_price else "eBay"`. -/
def cheaperPlatform (ep fp : ℚ) : String :=
  if fp < ep then "Facebook" else "eBay"

/-- The weighted trading-card confidence of `match_trading_cards`:
`title_sim * 0.4 + keyword_overlap * 0.3` plus a 0.1 bonus for each of the
shared-PSA, shared-grade and shared-edition probes, halved when both
all-in prices are positive and differ by more than 30% of the larger. -/
def tradingConfidence (title_sim keyword_overlap : ℚ)
    (psa_m grade_m edition_m : Bool) (ep fp : ℚ) : ℚ :=
  let conf0 := title_sim * (2/5) + keyword_overlap * (3/10)
    + (if psa_m then 1/10 else 0)
    + (if grade_m then 1/10 else 0)
    + (if edition_m then 1/10 else 0)
  if 0 < ep ∧ 0 < fp ∧ min ep fp / max ep fp < 7/10 then conf0 * (1/2)
  else conf0

/-- The trading-card confidence of a listing pair. -/
def tcConfidence (simf : String → String → ℚ) (e f : Item) : ℚ :=
  tradingConfidence (similarity_score simf e.title f.title)
    (kwOverlap (extract_keywords e.title) (extract_keywords f.title))
    (psaMatch e f) (gradeMatch e f) (editionMatch e f)
    (e.price + e.shipping) (f.price + f.shipping)

/-- `match_trading_cards` (arbitrage_comparison.py, lines 40-109): exact
cert match short-circuits with confidence 1.0; otherwise the weighted
confidence is emitted only when it reaches 0.6. -/
def match_trading_cards (simf : String → String → ℚ) (e f : Item) :
    Option CrossPlatformMatch :=
  if e.cert ≠ "" ∧ f.cert ≠ "" ∧ e.cert = f.cert then
    some ⟨e, f, 1, |(e.price + e.shipping) - (f.price + f.shipping)|,
      cheaperPlatform (e.price + e.shipping) (f.price + f.shipping),
      "Exact cert match: " ++ e.cert⟩
  else if 3/5 ≤ tcConfidence simf e f then
    some ⟨e, f, tcConfidence simf e f,
      |(e.price + e.shipping) - (f.price + f.shipping)|,
      cheaperPlatform (e.price + e.shipping) (f.price + f.shipping),
      "Title similarity: " ++ toString (similarity_score simf e.title f.title)
        ++ ", Keywords: "
        ++ toString (kwOverlap (extract_keywords e.title)
              (extract_keywords f.title))⟩
  else none

/-- The luxury brand list of `match_luxury_items`. -/
def luxuryBrands : List String :=
  ["gucci", "ysl", "saint laurent", "louis vuitton", "prada", "chanel",
   "dior"]

/-- The brand of a luxury listing: lowercased metadata, else the first
known brand contained in the lowercased title, else empty. -/
def luxBrandOf (x : Item) : String :=
  if lowerStr x.brand = "" then
    (luxuryBrands.find? (fun b => strContains b (lowerStr x.title))).getD ""
  else lowerStr x.brand

/-- Greedy digits of the size pattern `\d+(?:\.\d+)?`. -/
def sizeDigits (cs : List Char) : Option (List Char) :=
  let d1 := cs.takeWhile Char.isDigit
  if d1.isEmpty then none
  else
    match cs.drop d1.length with
    | '.' :: r2 =>
      let d2 := r2.takeWhile Char.isDigit
      if d2.isEmpty then some d1 else some (d1 ++ '.' :: d2)
    | _ => some d1

/-- Try the size pattern `(size|sz)[\s:]*(\d+(?:\.\d+)?)` at the start of
`cs` (which is already lowercased); returns the digit group. -/
def sizeMatchAt (cs : List Char) : Option (List Char) :=
  if listStarts ['s', 'i', 'z', 'e'] cs then
    sizeDigits ((cs.drop 4).dropWhile (fun c => c.isWhitespace || c == ':'))
  else if listStarts ['s', 'z'] cs then
    sizeDigits ((cs.drop 2).dropWhile (fun c => c.isWhitespace || c == ':'))
  else none

/-- Leftmost search of the size pattern with its leading `\b` word
boundary: `prevW` records whether the previous character was a word
character. -/
def sizeScan (prevW : Bool) : List Char → Option (List Char)
  | [] => none
  | c :: cs =>
    if prevW then sizeScan (wordChar c) cs
    else
      match sizeMatchAt (c :: cs) with
      | some g => some g
      | none => sizeScan (wordChar c) cs

/-- Size extracted from a title via
`re.search(r'\b(size|sz)[\s:]*(\d+(?:\.\d+)?)', title.lower())`;
empty when no match, mirroring the untouched `""` metadata default. -/
def sizeFromTitle (title : String) : String :=
  match sizeScan false (lowerStr title).toList with
  | some g => String.mk g
  | none => ""

/-- The effective size of a luxury listing: metadata, else title. -/
def luxSize (x : Item) : String :=
  if x.size = "" then sizeFromTitle x.title else x.size

/-- `"new" in condition.lower() or "new" in title.lower()`. -/
def itemIsNew (x : Item) : Bool :=
  strContains "new" (lowerStr x.condition) || strContains "new" (lowerStr x.title)

/-- The weighted luxury confidence of `match_luxury_items`:
`title_sim * 0.4 + keyword_overlap * 0.3`, +0.2 when both sizes exist and
agree, -0.1 when at least one size exists otherwise, +0.1 when the
new-condition flags agree. -/
def luxuryConfidence (title_sim keyword_overlap : ℚ) (es fs : String)
    (cond_agree : Bool) : ℚ :=
  let conf0 := title_sim * (2/5) + keyword_overlap * (3/10)
  let conf1 :=
    if es ≠ "" ∧ fs ≠ "" ∧ es = fs then conf0 + 1/5
    else if es ≠ "" ∨ fs ≠ "" then conf0 - 1/10
    else conf0
  if cond_agree then conf1 + 1/10 else conf1

/-- The luxury confidence of a listing pair. -/
def lxConfidence (simf : String → String → ℚ) (e f : Item) : ℚ :=
  luxuryConfidence (similarity_score simf e.title f.title)
    (kwOverlap (extract_keywords e.title) (extract_keywords f.title))
    (luxSize e) (luxSize f)
    (itemIsNew e == itemIsNew f)

/-- `match_luxury_items` (arbitrage_comparison.py, lines 112-211): brands
must not conflict; if a side has no brand, some known brand must appear in
both titles; the weighted confidence is emitted only when it reaches
0.5. -/
def match_luxury_items (simf : String → String → ℚ) (e f : Item) :
    Option CrossPlatformMatch :=
  if luxBrandOf e ≠ "" ∧ luxBrandOf f ≠ "" ∧ luxBrandOf e ≠ luxBrandOf f then
    none
  else if (luxBrandOf e = "" ∨ luxBrandOf f = "")
      ∧ ¬ (luxuryBrands.any
            (fun b => strContains b (lowerStr e.title)
              && strContains b (lowerStr f.title)) = true) then
    none
  else if 1/2 ≤ lxConfidence simf e f then
    some ⟨e, f, lxConfidence simf e f,
      |(e.price + e.shipping) - (f.price + f.shipping)|,
      cheaperPlatform (e.price + e.shipping) (f.price + f.shipping),
      "Brand match, Title similarity: "
        ++ toString (similarity_score simf e.title f.title)⟩
  else none

lemma similarity_score_bounds (simf : String → String → ℚ)
    (hs : ∀ a b, 0 ≤ simf a b ∧ simf a b ≤ 1) (s1 s2 : String) :
    0 ≤ similarity_score simf s1 s2 ∧ similarity_score simf s1 s2 ≤ 1 := by
  unfold similarity_score
  split_ifs
  · constructor <;> norm_num
  · exact hs _ _

lemma kwOverlap_bounds (a b : Finset String) :
    0 ≤ kwOverlap a b ∧ kwOverlap a b ≤ 1 := by
  unfold kwOverlap
  have hd : (0:ℚ) < ((max (a ∪ b).card 1 : ℕ) : ℚ) := by
    have : 1 ≤ max (a ∪ b).card 1 := le_max_right _ _
    exact_mod_cast Nat.lt_of_lt_of_le Nat.zero_lt_one this
  constructor
  · apply div_nonneg _ (le_of_lt hd)
    exact_mod_cast Nat.zero_le _
  · rw [div_le_one hd]
    have hcard : (a ∩ b).card ≤ max (a ∪ b).card 1 :=
      le_trans (Finset.card_le_card Finset.inter_subset_union) (le_max_left _ _)
    exact_mod_cast hcard

lemma tradingConfidence_le_one (ts ko : ℚ) (b1 b2 b3 : Bool) (ep fp : ℚ)
    (hts1 : ts ≤ 1) (hko1 : ko ≤ 1) :
    tradingConfidence ts ko b1 b2 b3 ep fp ≤ 1 := by
  unfold tradingConfidence
  cases b1 <;> cases b2 <;> cases b3 <;>
    simp only [Bool.false_eq_true, if_false, if_true] <;>
      split_ifs <;> simp <;> linarith

lemma luxuryConfidence_le_one (ts ko : ℚ) (es fs : String) (ca : Bool)
    (hts1 : ts ≤ 1) (hko1 : ko ≤ 1) :
    luxuryConfidence ts ko es fs ca ≤ 1 := by
  unfold luxuryConfidence
  cases ca <;>
    simp only [Bool.false_eq_true, if_false, if_true] <;>
      split_ifs <;> linarith

/-- C1: whenever both listings carry a non-empty cert-number identity and
the identities agree, `match_trading_cards` emits a candidate with
confidence exactly 1.0 and the exact-cert-match reason, and the result
does not depend on the similarity function at all — the weighted score is
never computed. -/
theorem C1_exact_cert_match (simf simf2 : String → String → ℚ) (e f : Item)
    (he : e.cert ≠ "") (hf : f.cert ≠ "") (heq : e.cert = f.cert) :
    ∃ m, match_trading_cards simf e f = some m
      ∧ m.match_confidence = 1
      ∧ m.match_reason = "Exact cert match: " ++ e.cert
      ∧ match_trading_cards simf2 e f = some m := by
  refine ⟨⟨e, f, 1, |(e.price + e.shipping) - (f.price + f.shipping)|,
      cheaperPlatform (e.price + e.shipping) (f.price + f.shipping),
      "Exact cert match: " ++ e.cert⟩, ?_, rfl, rfl, ?_⟩ <;>
  · unfold match_trading_cards
    rw [if_pos ⟨he, hf, heq⟩]

/-- Items for the cert-match witnesses: the spec's own scenario pair. -/
def certItemE : Item :=
  { title := "Blue-Eyes White Dragon PSA 10", cert := "12345678",
    price := 100, shipping := 5 }

/-- The Facebook-side counterpart of `certItemE`. -/
def certItemF : Item :=
  { title := "Blue-Eyes White Dragon PSA 10", cert := "12345678",
    price := 90, shipping := 0 }

/-- C1 witness: the exact-cert pair of the spec scenario, under two
different similarity functions. -/
theorem C1_exact_cert_match_witness :
    ∃ m, match_trading_cards (fun _ _ => 0) certItemE certItemF = some m
      ∧ m.match_confidence = 1
      ∧ m.match_reason = "Exact cert match: " ++ certItemE.cert
      ∧ match_trading_cards (fun _ _ => 37) certItemE certItemF = some m :=
  C1_exact_cert_match (fun _ _ => 0) (fun _ _ => 37) certItemE certItemF
    (by decide) (by decide) (by decide)

/-- C6: under the documented `SequenceMatcher.ratio` contract (similarity
in [0, 1]), every emitted trading-card candidate has confidence in
[0.6, 1] and every emitted luxury candidate has confidence in [0.5, 1] —
in particular all emitted confidences lie in [0, 1] and no candidate
below its class threshold is ever emitted. -/
theorem C6_confidence_bounds (simf : String → String → ℚ)
    (hs : ∀ a b, 0 ≤ simf a b ∧ simf a b ≤ 1) (e f : Item)
    (m : CrossPlatformMatch) :
    (match_trading_cards simf e f = some m →
        0 ≤ m.match_confidence ∧ m.match_confidence ≤ 1
          ∧ 3/5 ≤ m.match_confidence)
      ∧ (match_luxury_items simf e f = some m →
          0 ≤ m.match_confidence ∧ m.match_confidence ≤ 1
            ∧ 1/2 ≤ m.match_confidence) := by
  obtain ⟨hts0, hts1⟩ := similarity_score_bounds simf hs e.title f.title
  obtain ⟨hko0, hko1⟩ :=
    kwOverlap_bounds (extract_keywords e.title) (extract_keywords f.title)
  constructor
  · intro h
    unfold match_trading_cards at h
    split_ifs at h with h1 h2
    · injection h with h'
      subst h'
      refine ⟨by norm_num, by norm_num, by norm_num⟩
    · injection h with h'
      subst h'
      have hle : tcConfidence simf e f ≤ 1 :=
        tradingConfidence_le_one _ _ _ _ _ _ _ hts1 hko1
      exact ⟨by dsimp; linarith, by dsimp; linarith, by dsimp; linarith⟩
  · intro h
    unfold match_luxury_items at h
    split_ifs at h with h1 h2 h3
    · injection h with h'
      subst h'
      have hle : lxConfidence simf e f ≤ 1 :=
        luxuryConfidence_le_one _ _ _ _ _ hts1 hko1
      exact ⟨by dsimp; linarith, by dsimp; linarith, by dsimp; linarith⟩

/-- Luxury items for the C6 witness. -/
def luxItemE : Item :=
  { title := "Gucci Marmont bag size 9", price := 400, shipping := 10,
    condition := "New with tags" }

/-- The Facebook-side counterpart of `luxItemE`. -/
def luxItemF : Item :=
  { title := "Gucci Marmont bag size 9", price := 350, shipping := 0,
    condition := "new" }

/-- The luxury candidate emitted for `luxItemE`/`luxItemF` under the
constant similarity function 1. -/
def luxMatchW : CrossPlatformMatch :=
  { ebay_item := luxItemE, facebook_item := luxItemF
    match_confidence := 1, price_difference := 60,
    best_platform := "Facebook",
    match_reason := "Brand match, Title similarity: 1" }

/-- C6 witness: the bounds evaluated on a concrete emitted trading-card
candidate (exact cert match) and a concrete emitted luxury candidate. -/
theorem C6_confidence_bounds_witness :
    ((0:ℚ) ≤ 1 ∧ (1:ℚ) ≤ 1 ∧ (3/5:ℚ) ≤ 1)
      ∧ (0 ≤ luxMatchW.match_confidence ∧ luxMatchW.match_confidence ≤ 1
          ∧ 1/2 ≤ luxMatchW.match_confidence) := by
  constructor
  · have h := (C6_confidence_bounds (fun _ _ => 0)
      (fun a b => ⟨le_refl 0, show (0:ℚ) ≤ 1 by decide⟩) certItemE certItemF
      ⟨certItemE, certItemF, 1, 15, "Facebook",
        "Exact cert match: 12345678"⟩).1 (by decide)
    simpa using h
  · exact (C6_confidence_bounds (fun _ _ => 1)
      (fun a b => ⟨show (0:ℚ) ≤ 1 by decide, le_refl 1⟩) luxItemE luxItemF luxMatchW).2
      (by decide)

/-! ## Trading-card identity extraction

From `src/psa_card_arbitrage.py` (`extract_cert_from_item`, lines
484-528).  Method 1 validates an already-extracted cert field against
`^\d{6,9}$` (after `strip()`); method 2 scans aspect entries whose key
contains "cert", "certification" or "psa"; method 3 searches the title
with the keyword-prefixed regex patterns `PSA\s*#?\s*(\d{6,9})`,
`Cert\s*#?\s*(\d{6,9})`, `Certification\s*#?\s*(\d{6,9})`,
`PSA\s+(\d{6,9})`, `S#(\d{4,9})` and `Serial\s*#?\s*(\d{6,9})`
(case-insensitively), validating every candidate against `^\d{6,9}$`
before returning it.
-/

/-- Python `str.strip()`. -/
def pyStrip (s : String) : String :=
  String.mk
    (((s.toList.dropWhile Char.isWhitespace).reverse.dropWhile
        Char.isWhitespace).reverse)

/-- The validation regex `^\d{6,9}$`: 6 to 9 characters, all digits. -/
def isCertTok (s : String) : Bool :=
  decide (6 ≤ s.toList.length) && decide (s.toList.length ≤ 9)
    && s.toList.all Char.isDigit

/-- An aspect value of the eBay payload: a string or a list of strings. -/
inductive AspectVal where
  | str (s : String)
  | lst (l : List String)
  deriving DecidableEq, Repr

/-- The parts of an eBay item that `extract_cert_from_item` reads. -/
structure CertItem where
  cert : Option String
  aspects : List (String × AspectVal)
  title : String
  deriving DecidableEq, Repr

/-- `any(keyword in key.lower() for keyword in ['cert', 'certification',
'psa'])`. -/
def certKeyHit (k : String) : Bool :=
  ["cert", "certification", "psa"].any
    (fun kw => strContains kw (lowerStr k))

/-- Method 1: the pre-extracted `cert` field, when truthy and valid. -/
def certMethod1 : Option String → Option String
  | some c => if c ≠ "" ∧ isCertTok (pyStrip c) = true then some (pyStrip c)
      else none
  | none => none

/-- Method 2: scan the aspects dictionary in order for a
certification-named key with a valid value (first string of a list
value). -/
def certFromAspects : List (String × AspectVal) → Option String
  | [] => none
  | (k, v) :: rest =>
    if certKeyHit k then
      match v with
      | AspectVal.str s =>
        if isCertTok (pyStrip s) then some (pyStrip s)
        else certFromAspects rest
      | AspectVal.lst [] => certFromAspects rest
      | AspectVal.lst (x :: _) =>
        if isCertTok (pyStrip x) then some (pyStrip x)
        else certFromAspects rest
    else certFromAspects rest

/-- One title regex of method 3: a literal keyword (given lowercase),
`\s+` or `\s*#?\s*` glue, and a greedy digit group of at least
`minDigits` and at most 9 digits. -/
structure CertPat where
  lit : List Char
  needWs : Bool
  allowHash : Bool
  minDigits : Nat
  deriving DecidableEq, Repr

/-- The six title patterns, in source order. -/
def certPatterns : List CertPat :=
  [⟨['p', 's', 'a'], false, true, 6⟩,
   ⟨['c', 'e', 'r', 't'], false, true, 6⟩,
   ⟨['c', 'e', 'r', 't', 'i', 'f', 'i', 'c', 'a', 't', 'i', 'o', 'n'],
     false, true, 6⟩,
   ⟨['p', 's', 'a'], true, false, 6⟩,
   ⟨['s', '#'], false, false, 4⟩,
   ⟨['s', 'e', 'r', 'i', 'a', 'l'], false, true, 6⟩]

/-- Case-insensitive literal prefix match (the literal is lowercase). -/
def litStarts : List Char → List Char → Bool
  | [], _ => true
  | _ :: _, [] => false
  | a :: as, b :: bs => (a == Char.toLower b) && litStarts as bs

/-- The greedy digit group `\d{minD,9}`: at least `minD` digits
available, of which at most 9 are consumed. -/
def certDigits (minD : Nat) (cs : List Char) : Option (List Char) :=
  if decide (minD ≤ (cs.takeWhile Char.isDigit).length) then
    some ((cs.takeWhile Char.isDigit).take 9)
  else none

/-- Try one pattern at the start of `cs`. -/
def certMatchAt (p : CertPat) (cs : List Char) : Option (List Char) :=
  if litStarts p.lit cs then
    if p.needWs then
      if ((cs.drop p.lit.length).takeWhile Char.isWhitespace).isEmpty then
        none
      else
        certDigits p.minDigits
          ((cs.drop p.lit.length).dropWhile Char.isWhitespace)
    else if p.allowHash then
      certDigits p.minDigits
        (match (cs.drop p.lit.length).dropWhile Char.isWhitespace with
          | '#' :: t => t.dropWhile Char.isWhitespace
          | r2 => r2)
    else certDigits p.minDigits (cs.drop p.lit.length)
  else none

/-- Leftmost `re.search` of one pattern. -/
def certSearch (p : CertPat) : List Char → Option (List Char)
  | [] => certMatchAt p []
  | c :: cs =>
    match certMatchAt p (c :: cs) with
    | some g => some g
    | none => certSearch p cs

/-- Method 3: the patterns in order, each validated against `^\d{6,9}$`
before being returned. -/
def certFromTitlePats : List CertPat → List Char → Option String
  | [], _ => none
  | p :: ps, cs =>
    match certSearch p cs with
    | some g =>
      if isCertTok (String.mk g) then some (String.mk g)
      else certFromTitlePats ps cs
    | none => certFromTitlePats ps cs

/-- Method 3 on a title string. -/
def certFromTitle (title : String) : Option String :=
  certFromTitlePats certPatterns title.toList

/-- `extract_cert_from_item` (src/psa_card_arbitrage.py): methods 1-3 in
order, returning `None` when no valid token is found. -/
def extract_cert_from_item (item : CertItem) : Option String :=
  match certMethod1 item.cert with
  | some t => some t
  | none =>
    match certFromAspects item.aspects with
    | some t => some t
    | none => certFromTitle item.title

lemma isCertTok_spec {s : String} (h : isCertTok s = true) :
    6 ≤ s.toList.length ∧ s.toList.length ≤ 9
      ∧ s.toList.all Char.isDigit = true := by
  unfold isCertTok at h
  simp only [Bool.and_eq_true, decide_eq_true_eq] at h
  exact ⟨h.1.1, h.1.2, h.2⟩

lemma certMethod1_isCertTok {c : Option String} {s : String}
    (h : certMethod1 c = some s) : isCertTok s = true := by
  cases c with
  | none => simp [certMethod1] at h
  | some c2 =>
    unfold certMethod1 at h
    dsimp only at h
    split_ifs at h with hc
    injection h with h2
    subst h2
    exact hc.2

lemma certFromAspects_isCertTok :
    ∀ {l : List (String × AspectVal)} {s : String},
      certFromAspects l = some s → isCertTok s = true := by
  intro l
  induction l with
  | nil => intro s h; simp [certFromAspects] at h
  | cons kv rest ih =>
    intro s h
    obtain ⟨k, v⟩ := kv
    unfold certFromAspects at h
    split_ifs at h with hk
    · cases v with
      | str s2 =>
        dsimp only at h
        split_ifs at h with hv
        · injection h with h2
          subst h2
          exact hv
        · exact ih h
      | lst l2 =>
        cases l2 with
        | nil =>
          dsimp only at h
          exact ih h
        | cons x xs =>
          dsimp only at h
          split_ifs at h with hv
          · injection h with h2
            subst h2
            exact hv
          · exact ih h
    · exact ih h

lemma certFromTitlePats_isCertTok :
    ∀ {ps : List CertPat} {cs : List Char} {s : String},
      certFromTitlePats ps cs = some s → isCertTok s = true := by
  intro ps
  induction ps with
  | nil => intro cs s h; simp [certFromTitlePats] at h
  | cons p ps ih =>
    intro cs s h
    unfold certFromTitlePats at h
    cases hm : certSearch p cs with
    | none =>
      rw [hm] at h
      dsimp only at h
      exact ih h
    | some g =>
      rw [hm] at h
      dsimp only at h
      split_ifs at h with hv
      · injection h with h2
        subst h2
        exact hv
      · exact ih h

/-- C8 counterexample: the validation pattern is `^\d{6,9}$`, so a
6-digit cert field is accepted and returned — the claimed 7-9 digit
range is wrong. -/
theorem C8_cert_counterexample :
    extract_cert_from_item ⟨some "123456", [], ""⟩ = some "123456"
      ∧ ¬ (7 ≤ ("123456" : String).toList.length) := by
  constructor <;> decide

/-- C8 amended: trading-card identity extraction returns either nil or a
purely numeric token of 6-9 digits, taken preferentially from the cert
field, then from certification-named aspect fields, then from
keyword-prefixed patterns in the title; when no such token is found it
returns nil rather than guessing. -/
theorem C8_cert_extraction (item : CertItem) :
    (∀ s, extract_cert_from_item item = some s →
        6 ≤ s.toList.length ∧ s.toList.length ≤ 9
          ∧ s.toList.all Char.isDigit = true)
      ∧ (∀ c, item.cert = some c → c ≠ "" → isCertTok (pyStrip c) = true →
          extract_cert_from_item item = some (pyStrip c)) := by
  constructor
  · intro s h
    unfold extract_cert_from_item at h
    cases hm1 : certMethod1 item.cert with
    | some t =>
      rw [hm1] at h
      dsimp only at h
      injection h with h2
      subst h2
      exact isCertTok_spec (certMethod1_isCertTok hm1)
    | none =>
      rw [hm1] at h
      dsimp only at h
      cases hm2 : certFromAspects item.aspects with
      | some t =>
        rw [hm2] at h
        dsimp only at h
        injection h with h2
        subst h2
        exact isCertTok_spec (certFromAspects_isCertTok hm2)
      | none =>
        rw [hm2] at h
        dsimp only at h
        exact isCertTok_spec (certFromTitlePats_isCertTok h)
  · intro c hc hne hv
    unfold extract_cert_from_item
    rw [hc]
    unfold certMethod1
    dsimp only
    rw [if_pos ⟨hne, hv⟩]

/-- C8 witness: the amended extraction evaluated on an item whose cert
field is " 7654321 " (stripped to a 7-digit token). -/
theorem C8_cert_extraction_witness :
    extract_cert_from_item ⟨some " 7654321 ", [], ""⟩
        = some (pyStrip " 7654321 ")
      ∧ 6 ≤ (pyStrip " 7654321 ").toList.length
      ∧ (pyStrip " 7654321 ").toList.length ≤ 9
      ∧ (pyStrip " 7654321 ").toList.all Char.isDigit = true := by
  have h := C8_cert_extraction ⟨some " 7654321 ", [], ""⟩
  have h2 := h.2 " 7654321 " rfl (by decide) (by decide)
  exact ⟨h2, h.1 _ h2⟩
